import Mathlib

/-!
Verification development for the membership-progression system: a shallow
embedding of the database schema, the trigger functions that maintain
derived counters (supabase/schema.sql), the promotion operations
(PromoteToPipelinerDialog.handleConfirm and usePipeliners.promotePipelinerToMember),
and the reporting aggregator (src/lib/membershipStats.ts), together with
theorems settling the specification claims about them.
-/

namespace Membership

/-- Row identifiers: uuids in the source, modelled as naturals. -/
abbrev Id := Nat

/-- Attendance status, from the check constraint on public.attendance.status. -/
inductive AttStatus where
  | present
  | apology
  | absent
deriving DecidableEq

/-- Row of public.attendance: three nullable subject references plus a status. -/
structure AttendanceRow where
  id : Id
  meeting_id : Id
  member_id : Option Id := none
  guest_id : Option Id := none
  pipeliner_id : Option Id := none
  status : AttStatus
deriving DecidableEq

/-- Row of public.guests (fields relevant to the claims). -/
structure GuestRow where
  id : Id
  full_name : String := ""
  email : Option String := none
  phone : Option String := none
  invited_by : Option Id := none
  status : String := "active"
  total_meetings : Nat := 0
deriving DecidableEq

/-- Row of public.pipeliners (fields relevant to the claims). -/
structure PipelinerRow where
  id : Id
  full_name : String := ""
  email : Option String := none
  phone : Option String := none
  promoted_from_guest_date : Option String := none
  guest_meetings_count : Nat := 3
  business_meetings_count : Nat := 0
  charity_events_count : Nat := 0
  is_eligible_for_membership : Bool := false
  status : String := "active"
  sponsored_by : Option Id := none
  notes : Option String := none
deriving DecidableEq

/-- Row of public.members. member_number is nullable and unique. -/
structure MemberRow where
  id : Id
  full_name : String := ""
  email : String := ""
  phone : Option String := none
  member_number : Option String := none
  join_date : String := ""
  status : String := "active"
deriving DecidableEq

/-- Row of public.charity_events: the participant id array is nullable. -/
structure CharityEventRow where
  id : Id
  event_name : String := ""
  event_date : String := ""
  participant_ids : Option (List Id) := none
deriving DecidableEq

/-- Row of public.guest_events (feeds the guest view event_count). -/
structure GuestEventRow where
  id : Id
  guest_id : Id
  event_name : String := ""
  event_date : String := ""
deriving DecidableEq

/-- Row of public.meetings (fields used by the reporting aggregator). -/
structure MeetingRow where
  id : Id
  meeting_date : String := ""
  meeting_type : String := "business"
deriving DecidableEq

/-- The database state: one list per table. -/
structure DB where
  members : List MemberRow := []
  meetings : List MeetingRow := []
  guests : List GuestRow := []
  pipeliners : List PipelinerRow := []
  attendance : List AttendanceRow := []
  charity_events : List CharityEventRow := []
  guest_events : List GuestEventRow := []
deriving DecidableEq

/-- Predicate for a present attendance row of a given guest
(the filter in refresh_guest_meeting_count and in the guest view). -/
def isGuestPresent (g : Id) (a : AttendanceRow) : Bool :=
  a.guest_id == some g && a.status == AttStatus.present

/-- count(*) from attendance where guest_id = g and status = present. -/
def guestPresentCount (atts : List AttendanceRow) (g : Id) : Nat :=
  atts.countP (isGuestPresent g)

/-- Predicate for a present attendance row of a given pipeliner. -/
def isPipelinerPresent (p : Id) (a : AttendanceRow) : Bool :=
  a.pipeliner_id == some p && a.status == AttStatus.present

/-- count(*) from attendance where pipeliner_id = p and status = present. -/
def pipelinerPresentCount (atts : List AttendanceRow) (p : Id) : Nat :=
  atts.countP (isPipelinerPresent p)

/-- count(*) from charity_events where coalesce(participant_ids, array[]) contains p. -/
def pipelinerCharityCount (events : List CharityEventRow) (p : Id) : Nat :=
  events.countP (fun e => (e.participant_ids.getD []).contains p)

/-- count(*) from guest_events grouped by guest_id (event_stats in the guest view). -/
def guestEventCount (events : List GuestEventRow) (g : Id) : Nat :=
  events.countP (fun e => e.guest_id == g)

/-- SQL three-valued inequality on nullable ids: old <> new is true only when
both sides are non-null and differ; a comparison against NULL is not true. -/
def sqlNeq (a b : Option Id) : Bool :=
  match a, b with
  | some x, some y => x != y
  | _, _ => false

/-- Embedding of public.refresh_guest_meeting_count: recompute the present
count for the guest from the attendance ledger and write it to the guest row. -/
def refresh_guest_meeting_count (db : DB) (g : Id) : DB :=
  { db with guests := db.guests.map (fun row =>
      if row.id == g then { row with total_meetings := guestPresentCount db.attendance g }
      else row) }

/-- Embedding of public.refresh_pipeliner_eligibility: recompute both counters
from the ledgers and write them with the recomputed eligibility flag. -/
def refresh_pipeliner_eligibility (db : DB) (p : Id) : DB :=
  let mc := pipelinerPresentCount db.attendance p
  let cc := pipelinerCharityCount db.charity_events p
  { db with pipeliners := db.pipeliners.map (fun row =>
      if row.id == p then
        { row with business_meetings_count := mc,
                   charity_events_count := cc,
                   is_eligible_for_membership := decide (3 ≤ mc) && decide (1 ≤ cc) }
      else row) }

/-- INSERT branch of trigger function public.update_guest_meeting_count. -/
def trgGuestInsert (db : DB) (new : AttendanceRow) : DB :=
  match new.guest_id with
  | some g => refresh_guest_meeting_count db g
  | none => db

/-- UPDATE branch of public.update_guest_meeting_count. The second guard is
the literal SQL condition old.guest_id is not null and old.guest_id <> new.guest_id,
with SQL null-comparison semantics (sqlNeq). -/
def trgGuestUpdate (db : DB) (old new : AttendanceRow) : DB :=
  let db1 := match new.guest_id with
    | some g => refresh_guest_meeting_count db g
    | none => db
  match old.guest_id with
  | some o => if sqlNeq (some o) new.guest_id then refresh_guest_meeting_count db1 o else db1
  | none => db1

/-- DELETE branch of public.update_guest_meeting_count. -/
def trgGuestDelete (db : DB) (old : AttendanceRow) : DB :=
  match old.guest_id with
  | some o => refresh_guest_meeting_count db o
  | none => db

/-- INSERT branch of trigger function public.update_pipeliner_eligibility. -/
def trgPipInsert (db : DB) (new : AttendanceRow) : DB :=
  match new.pipeliner_id with
  | some p => refresh_pipeliner_eligibility db p
  | none => db

/-- UPDATE branch of public.update_pipeliner_eligibility, with the same
SQL null-comparison guard as the guest trigger. -/
def trgPipUpdate (db : DB) (old new : AttendanceRow) : DB :=
  let db1 := match new.pipeliner_id with
    | some p => refresh_pipeliner_eligibility db p
    | none => db
  match old.pipeliner_id with
  | some o => if sqlNeq (some o) new.pipeliner_id then refresh_pipeliner_eligibility db1 o else db1
  | none => db1

/-- DELETE branch of public.update_pipeliner_eligibility. -/
def trgPipDelete (db : DB) (old : AttendanceRow) : DB :=
  match old.pipeliner_id with
  | some o => refresh_pipeliner_eligibility db o
  | none => db

/-- The foreach loop of public.update_pipeliner_eligibility_from_charity. -/
def refreshPipList (db : DB) (ps : List Id) : DB :=
  ps.foldl refresh_pipeliner_eligibility db

/-- INSERT branch of public.update_pipeliner_eligibility_from_charity. -/
def trgCharityInsert (db : DB) (new : CharityEventRow) : DB :=
  refreshPipList db (new.participant_ids.getD [])

/-- UPDATE branch: refresh every old participant, then every new participant. -/
def trgCharityUpdate (db : DB) (old new : CharityEventRow) : DB :=
  refreshPipList (refreshPipList db (old.participant_ids.getD [])) (new.participant_ids.getD [])

/-- DELETE branch of public.update_pipeliner_eligibility_from_charity. -/
def trgCharityDelete (db : DB) (old : CharityEventRow) : DB :=
  refreshPipList db (old.participant_ids.getD [])

/-- Ledger mutation: insert an attendance row, then fire the two after-insert
triggers in their name order (guest counter first, then pipeliner eligibility). -/
def insertAttendance (db : DB) (row : AttendanceRow) : DB :=
  let db1 := { db with attendance := db.attendance ++ [row] }
  trgPipInsert (trgGuestInsert db1 row) row

/-- Ledger mutation: update the attendance row at position i to the given new
row, then fire the two after-update triggers with the old and new rows. -/
def updateAttendance (db : DB) (i : Nat) (new : AttendanceRow) : DB :=
  match db.attendance[i]? with
  | none => db
  | some old =>
      let db1 := { db with attendance := db.attendance.set i new }
      trgPipUpdate (trgGuestUpdate db1 old new) old new

/-- Ledger mutation: delete the attendance row at position i, then fire the
two after-delete triggers with the old row. -/
def deleteAttendance (db : DB) (i : Nat) : DB :=
  match db.attendance[i]? with
  | none => db
  | some old =>
      let db1 := { db with attendance := db.attendance.eraseIdx i }
      trgPipDelete (trgGuestDelete db1 old) old

/-- Ledger mutation: insert a charity event, firing the charity trigger. -/
def insertCharityEvent (db : DB) (row : CharityEventRow) : DB :=
  trgCharityInsert { db with charity_events := db.charity_events ++ [row] } row

/-- Ledger mutation: update the charity event at position i, firing the trigger
with the old and new rows. -/
def updateCharityEvent (db : DB) (i : Nat) (new : CharityEventRow) : DB :=
  match db.charity_events[i]? with
  | none => db
  | some old =>
      trgCharityUpdate { db with charity_events := db.charity_events.set i new } old new

/-- Ledger mutation: delete the charity event at position i, firing the trigger. -/
def deleteCharityEvent (db : DB) (i : Nat) : DB :=
  match db.charity_events[i]? with
  | none => db
  | some old =>
      trgCharityDelete { db with charity_events := db.charity_events.eraseIdx i } old

/-- Row of the view public.guest_meeting_counts as consumed by the
promotion dialog (type GuestMeetingCounts). -/
structure GuestView where
  id : Id
  full_name : String := ""
  email : Option String := none
  phone : Option String := none
  invited_by : Option Id := none
  status : String := "active"
  total_meetings : Nat := 0
  meeting_count : Nat := 0
  present_count : Nat := 0
  apology_count : Nat := 0
  absent_count : Nat := 0
  event_count : Nat := 0
  eligible_for_pipeliner : Bool := false
deriving DecidableEq

/-- Embedding of the view public.guest_meeting_counts for one guest row:
attendance tallies from public.attendance, event_count from public.guest_events,
and the eligibility column present_count >= 3 and event_count >= 1. -/
def guestViewRow (db : DB) (g : GuestRow) : GuestView :=
  let present := guestPresentCount db.attendance g.id
  let events := guestEventCount db.guest_events g.id
  { id := g.id
    full_name := g.full_name
    email := g.email
    phone := g.phone
    invited_by := g.invited_by
    status := g.status
    total_meetings := g.total_meetings
    meeting_count := db.attendance.countP (fun a => a.guest_id == some g.id)
    present_count := present
    apology_count := db.attendance.countP
      (fun a => a.guest_id == some g.id && a.status == AttStatus.apology)
    absent_count := db.attendance.countP
      (fun a => a.guest_id == some g.id && a.status == AttStatus.absent)
    event_count := events
    eligible_for_pipeliner := decide (3 ≤ present) && decide (1 ≤ events) }

/-- Row of the view public.pipeliner_eligibility: the stored pipeliner columns
plus the live counts and the meets_requirements column. -/
structure PipelinerView where
  id : Id
  full_name : String := ""
  email : Option String := none
  phone : Option String := none
  guest_meetings_count : Nat := 3
  business_meetings_count : Nat := 0
  charity_events_count : Nat := 0
  is_eligible_for_membership : Bool := false
  status : String := "active"
  sponsored_by : Option Id := none
  meeting_count : Nat := 0
  charity_event_count : Nat := 0
  meets_requirements : Bool := false
deriving DecidableEq

/-- Embedding of the view public.pipeliner_eligibility for one pipeliner row:
live meeting_count from attendance, live charity_event_count from the unnested
participant arrays, and meets_requirements = meeting_count >= 3 and
charity_event_count >= 1. -/
def pipelinerViewRow (db : DB) (p : PipelinerRow) : PipelinerView :=
  let mc := pipelinerPresentCount db.attendance p.id
  let cc := pipelinerCharityCount db.charity_events p.id
  { id := p.id
    full_name := p.full_name
    email := p.email
    phone := p.phone
    guest_meetings_count := p.guest_meetings_count
    business_meetings_count := p.business_meetings_count
    charity_events_count := p.charity_events_count
    is_eligible_for_membership := p.is_eligible_for_membership
    status := p.status
    sponsored_by := p.sponsored_by
    meeting_count := mc
    charity_event_count := cc
    meets_requirements := decide (3 ≤ mc) && decide (1 ≤ cc) }

/-- Modelled from the spec: the module lib/pipelinerEligibility is not among
the sources (only its importers are); the spec names the business-meeting
threshold as a named constant with value 3. -/
def BUSINESS_MEETING_TARGET : Nat := 3

/-- Modelled from the spec: the charity-event threshold named constant, value 1. -/
def CHARITY_EVENT_TARGET : Nat := 1

/-- Modelled from the spec: accessor of lib/pipelinerEligibility returning the
business-meeting count of a pipeliner eligibility row; the spec defines the
gate over the current counters of the eligibility view. -/
def getPipelinerBusinessMeetingCount (v : PipelinerView) : Nat :=
  v.meeting_count

/-- Modelled from the spec: accessor returning the charity-event count of a
pipeliner eligibility row. -/
def getPipelinerCharityEventCount (v : PipelinerView) : Nat :=
  v.charity_event_count

/-- Modelled from the spec: pipelinerEligibleForMembership, the pure gate
businessMeetingsCount >= 3 and charityEventsCount >= 1, applied to the counts
of the eligibility row. -/
def hasMetMembershipRequirements (v : PipelinerView) : Bool :=
  decide (BUSINESS_MEETING_TARGET ≤ getPipelinerBusinessMeetingCount v) &&
    decide (CHARITY_EVENT_TARGET ≤ getPipelinerCharityEventCount v)

/-- Failure outcomes of the guest promotion flow in
PromoteToPipelinerDialog.handleConfirm. -/
inductive PromoteGuestError where
  | noGuestSelected
  | noSponsor
  | pipelinerInsertFailed
  | guestUpdateFailed
deriving DecidableEq

/-- Embedding of PromoteToPipelinerDialog.handleConfirm.

The dialog proceeds when a guest view row is selected and a sponsoring member
chosen; it performs no status or eligibility check. Step 1 inserts a pipeliner
row seeded from the guest view row (charity_events_count takes the table
default 0 because the payload omits it); step 2 updates the guest row to
status became_pipeliner with total_meetings = max(total_meetings, 3). If step 2
fails after step 1 succeeded, the inserted pipeliner row is deleted by id
before the error surfaces. The booleans ok1 and ok2 are the failure oracle for
the two store writes, and newId models the id generated for the insert. -/
def promoteGuestToPipeliner (db : DB) (guest : Option GuestView) (sponsorId : Option Id)
    (notes : Option String) (today : String) (newId : Id) (ok1 ok2 : Bool) :
    DB × Option PromoteGuestError :=
  match guest with
  | none => (db, some PromoteGuestError.noGuestSelected)
  | some gv =>
    match sponsorId with
    | none => (db, some PromoteGuestError.noSponsor)
    | some sid =>
      if ok1 then
        let newPip : PipelinerRow :=
          { id := newId
            full_name := gv.full_name
            email := gv.email
            phone := gv.phone
            promoted_from_guest_date := some today
            guest_meetings_count := max gv.meeting_count 3
            business_meetings_count := gv.present_count
            charity_events_count := 0
            is_eligible_for_membership := false
            status := "active"
            sponsored_by := some sid
            notes := notes }
        let db1 := { db with pipeliners := db.pipeliners ++ [newPip] }
        if ok2 then
          ({ db1 with guests := db1.guests.map (fun g =>
              if g.id == gv.id then
                { g with status := "became_pipeliner", total_meetings := max gv.total_meetings 3 }
              else g) }, none)
        else
          ({ db1 with pipeliners := db1.pipeliners.filter (fun q => q.id != newId) },
            some PromoteGuestError.guestUpdateFailed)
      else (db, some PromoteGuestError.pipelinerInsertFailed)

/-- Form values accepted by createPipeliner and updatePipeliner
(type PipelinerFormValues in usePipeliners). -/
structure PipelinerFormValues where
  full_name : String
  email : Option String := none
  phone : Option String := none
  promoted_from_guest_date : Option String := none
  guest_meetings_count : Option Nat := none
  business_meetings_count : Option Nat := none
  charity_events_count : Option Nat := none
  is_eligible_for_membership : Option Bool := none
  status : Option String := none
  sponsored_by : Option Id := none
  notes : Option String := none
deriving DecidableEq

/-- Whitespace trim with the semantics of JS String.trim, re-implemented
structurally over the character list so that concrete evaluation reduces. -/
def strTrim (s : String) : String :=
  ⟨((s.data.dropWhile Char.isWhitespace).reverse.dropWhile Char.isWhitespace).reverse⟩

/-- The pattern value?.trim() or null from the payload normalization. -/
def normStr (s : Option String) : Option String :=
  match s with
  | some v => if strTrim v == "" then none else some (strTrim v)
  | none => none

/-- Embedding of normalizePipelinerPayload from usePipeliners: trims the text
fields and fills the defaults for the counters, the flag and the status. -/
def normalizePipelinerPayload (v : PipelinerFormValues) (newId : Id) : PipelinerRow :=
  { id := newId
    full_name := strTrim v.full_name
    email := normStr v.email
    phone := normStr v.phone
    promoted_from_guest_date := v.promoted_from_guest_date
    guest_meetings_count := v.guest_meetings_count.getD 3
    business_meetings_count := v.business_meetings_count.getD 0
    charity_events_count := v.charity_events_count.getD 0
    is_eligible_for_membership := v.is_eligible_for_membership.getD false
    status := v.status.getD "active"
    sponsored_by := v.sponsored_by
    notes := normStr v.notes }

/-- Embedding of usePipeliners.createPipeliner: insert the normalized payload. -/
def createPipeliner (db : DB) (v : PipelinerFormValues) (newId : Id) : DB :=
  { db with pipeliners := db.pipeliners ++ [normalizePipelinerPayload v newId] }

/-- Failure outcomes of usePipeliners.promotePipelinerToMember. -/
inductive PromoteMemberError where
  | pipelinerNotFound
  | notEligible
  | memberNumberRequired
  | joinDateRequired
  | emailRequired
  | memberInsertFailed
  | pipelinerUpdateFailed
deriving DecidableEq

/-- Embedding of usePipeliners.promotePipelinerToMember.

The hook looks the pipeliner up among the eligibility view rows, gates on
hasMetMembershipRequirements or the cached flag, validates the member number,
join date and email, then (1) inserts a member row with the pipeliner contact
details, the trimmed member number, the join date and status active, and
(2) updates the pipeliner to status became_member with the eligibility flag
cleared. If step (2) fails the inserted member is deleted by id before the
error surfaces. The member insert also fails when the unique constraints of
public.members (email, member_number) would be violated; okInsert and okUpdate
are the transient-failure oracle and newMemberId the generated member id. -/
def promotePipelinerToMember (db : DB) (pid : Id) (member_number join_date : String)
    (newMemberId : Id) (okInsert okUpdate : Bool) : DB × Option PromoteMemberError :=
  match db.pipeliners.find? (fun q => q.id == pid) with
  | none => (db, some PromoteMemberError.pipelinerNotFound)
  | some p =>
    let v := pipelinerViewRow db p
    let meets := hasMetMembershipRequirements v || v.is_eligible_for_membership
    if !meets then (db, some PromoteMemberError.notEligible)
    else if strTrim member_number == "" then (db, some PromoteMemberError.memberNumberRequired)
    else if join_date == "" then (db, some PromoteMemberError.joinDateRequired)
    else
      match v.email with
      | none => (db, some PromoteMemberError.emailRequired)
      | some email =>
        let mn := strTrim member_number
        let dup := db.members.any (fun m => m.email == email || m.member_number == some mn)
        if !okInsert || dup then (db, some PromoteMemberError.memberInsertFailed)
        else
          let newMember : MemberRow :=
            { id := newMemberId
              full_name := v.full_name
              email := email
              phone := v.phone
              member_number := some mn
              join_date := join_date
              status := "active" }
          let db1 := { db with members := db.members ++ [newMember] }
          if okUpdate then
            ({ db1 with pipeliners := db1.pipeliners.map (fun q =>
                if q.id == pid then
                  { q with status := "became_member", is_eligible_for_membership := false }
                else q) }, none)
          else
            ({ db1 with members := db1.members.filter (fun m => m.id != newMemberId) },
              some PromoteMemberError.pipelinerUpdateFailed)

/-- Invariant of claim C1: every guest row carries exactly the number of its
present attendance records. -/
def guestInv (db : DB) : Prop :=
  ∀ g ∈ db.guests, g.total_meetings = guestPresentCount db.attendance g.id

/-- Invariant of claim C2: the cached eligibility flag of every pipeliner row
agrees with the eligibility predicate over its stored counters. -/
def pipelinerFlagInv (db : DB) : Prop :=
  ∀ p ∈ db.pipeliners,
    p.is_eligible_for_membership =
      (decide (3 ≤ p.business_meetings_count) && decide (1 ≤ p.charity_events_count))

instance (db : DB) : Decidable (guestInv db) := by
  unfold guestInv
  exact List.decidableBAll _ _

instance (db : DB) : Decidable (pipelinerFlagInv db) := by
  unfold pipelinerFlagInv
  exact List.decidableBAll _ _

/-- Subject-reference keys of the three partial unique indexes on
public.attendance: (meeting_id, member_id) where member_id is not null. -/
def memberKey (r : AttendanceRow) : Option (Id × Id) :=
  r.member_id.map (fun x => (r.meeting_id, x))

/-- Key of the partial unique index (meeting_id, guest_id). -/
def guestKey (r : AttendanceRow) : Option (Id × Id) :=
  r.guest_id.map (fun x => (r.meeting_id, x))

/-- Key of the partial unique index (meeting_id, pipeliner_id). -/
def pipelinerKey (r : AttendanceRow) : Option (Id × Id) :=
  r.pipeliner_id.map (fun x => (r.meeting_id, x))

/-- A partial unique index holds of a table when no later row repeats a
non-null key of an earlier row. -/
def noDupKey (key : AttendanceRow → Option (Id × Id)) : List AttendanceRow → Bool
  | [] => true
  | r :: rest =>
    (match key r with
     | none => true
     | some k => rest.all (fun s => decide (key s ≠ some k))) && noDupKey key rest

/-- Everything the schema of public.attendance enforces about subject
references: the three partial unique indexes (the status check constraint is
inherent in the AttStatus type; there is no constraint relating the three
nullable subject columns). -/
def attendanceIndexesOk (rows : List AttendanceRow) : Bool :=
  noDupKey memberKey rows && noDupKey guestKey rows && noDupKey pipelinerKey rows

/-- Number of non-null subject references of an attendance row. -/
def subjectRefCount (r : AttendanceRow) : Nat :=
  (if r.member_id.isSome then 1 else 0) + (if r.guest_id.isSome then 1 else 0) +
    (if r.pipeliner_id.isSome then 1 else 0)

/-- Result record of fetchMembershipStats (src/lib/membershipStats.ts); the
rate fields are rationals in the embedding. -/
structure StatsResult where
  activeMembers : Nat
  attendedLastMeeting : Nat
  attendanceRate : ℚ
  yearlyAverage : ℚ
  pipelinerPresentCount : Nat
  pipelinerAttendanceRate : ℚ
  pipeliners : Nat
  meetingAttendanceCount : Nat
  meetingAttendancePercentage : ℚ
deriving DecidableEq

/-- Embedding of roundToTwoDecimals: Math.round(value * 100) / 100. The
Number.isFinite guard of the source concerns floating-point values; rational
values are always finite, so the rounding branch is always taken. -/
def roundToTwoDecimals (x : ℚ) : ℚ :=
  ((round (x * 100) : ℤ) : ℚ) / 100

/-- Ids of the members counted as active by fetchMembershipStats:
status active with a non-null member_number. -/
def activeMemberIdsOf (db : DB) : List Id :=
  (db.members.filter (fun m => m.status == "active" && m.member_number.isSome)).map (fun m => m.id)

/-- Head count of pipeliners with status active. -/
def activePipelinerCountOf (db : DB) : Nat :=
  (db.pipeliners.filter (fun p => p.status == "active")).length

/-- Meetings whose date lies in the requested month window. -/
def monthMeetingsOf (db : DB) (monthStart monthEnd : String) : List MeetingRow :=
  db.meetings.filter (fun m =>
    decide (monthStart ≤ m.meeting_date) && decide (m.meeting_date ≤ monthEnd))

/-- The year window closes at the earlier of the requested month end and today. -/
def yearRangeEndOf (monthEnd today : String) : String :=
  if monthEnd < today then monthEnd else today

/-- Ids of the meetings in the year-to-date window, keeping only meetings not
after today (the filteredYearMeetings step). -/
def yearMeetingIdsOf (db : DB) (yearStart monthEnd today : String) : List Id :=
  (((db.meetings.filter (fun m =>
      decide (yearStart ≤ m.meeting_date) &&
        decide (m.meeting_date ≤ yearRangeEndOf monthEnd today))).filter (fun m =>
      decide (m.meeting_date < today) || m.meeting_date == today)).map (fun m => m.id))

/-- Present attendance rows of the meetings of the requested month. -/
def monthAttendanceOf (db : DB) (monthStart monthEnd : String) : List AttendanceRow :=
  db.attendance.filter (fun a =>
    ((monthMeetingsOf db monthStart monthEnd).map (fun m => m.id)).contains a.meeting_id &&
      a.status == AttStatus.present)

/-- Attendance rows of the year window that carry a member reference. -/
def yearMemberAttendanceOf (db : DB) (yearStart monthEnd today : String) : List AttendanceRow :=
  db.attendance.filter (fun a =>
    (yearMeetingIdsOf db yearStart monthEnd today).contains a.meeting_id && a.member_id.isSome)

/-- Stable ascending insertion by meeting date (the localeCompare sort). -/
def insertByDate (m : MeetingRow) : List MeetingRow → List MeetingRow
  | [] => [m]
  | x :: xs =>
    if decide (x.meeting_date ≤ m.meeting_date) then x :: insertByDate m xs else m :: x :: xs

/-- Sort a meeting list ascending by date. -/
def sortByDate (l : List MeetingRow) : List MeetingRow :=
  l.foldr insertByDate []

/-- Embedding of fetchMembershipStats (getMonthlyAttendanceStats): the month
window, year window, parsed dates and window boundary strings computed by
date-fns in the source are taken as the four string parameters; everything
from the queries onward is embedded. The source totals pipeliner presence by
building a per-pipeliner map and summing its values, which equals the number
of present month rows carrying a pipeliner reference, embedded here as the
length of the filterMap. -/
def fetchMembershipStats (db : DB) (monthStart monthEnd yearStart today : String) :
    StatsResult :=
  let activeMembers := (activeMemberIdsOf db).length
  let pipelinersCount := activePipelinerCountOf db
  let monthMeetings := monthMeetingsOf db monthStart monthEnd
  let monthIds := monthMeetings.map (fun m => m.id)
  let monthAttendance := monthAttendanceOf db monthStart monthEnd
  let uniqueMonthlyAttendees := (monthAttendance.filterMap (fun a => a.member_id)).dedup
  let meetingAttendancePercentage : ℚ :=
    if 0 < monthIds.length then
      (if 0 < activeMembers then
        ((uniqueMonthlyAttendees.length : ℚ) / (activeMembers : ℚ)) * 100
      else 0)
    else 0
  let pipelinerPresentTotal :=
    if 0 < monthIds.length then (monthAttendance.filterMap (fun a => a.pipeliner_id)).length
    else 0
  let pipelinerAttendanceRate : ℚ :=
    if 0 < monthIds.length then
      (if 0 < pipelinersCount then
        ((pipelinerPresentTotal : ℚ) / ((pipelinersCount : ℚ) * (monthIds.length : ℚ))) * 100
      else 0)
    else 0
  let sorted := sortByDate monthMeetings
  let business := sorted.filter (fun m => m.meeting_type == "business")
  let lastMeeting := match business.getLast? with
    | some m => some m
    | none => sorted.getLast?
  let attendedLastMeeting :=
    if 0 < monthIds.length then
      match lastMeeting with
      | some lm =>
        (((monthAttendance.filter (fun a => a.meeting_id == lm.id)).filterMap
            (fun a => a.member_id)).dedup).length
      | none => 0
    else 0
  let yearIds := yearMeetingIdsOf db yearStart monthEnd today
  let yearAttendance := yearMemberAttendanceOf db yearStart monthEnd today
  let memberAverages : List ℚ :=
    if 0 < yearIds.length then
      (activeMemberIdsOf db).dedup.filterMap (fun mid =>
        let rows := yearAttendance.filter (fun a => a.member_id == some mid)
        if 0 < rows.length then
          some (((rows.countP (fun a => a.status == AttStatus.present) : ℚ) /
            (rows.length : ℚ)) * 100)
        else none)
    else []
  let yearlyAverageAttendance : ℚ :=
    if 0 < memberAverages.length then memberAverages.sum / (memberAverages.length : ℚ) else 0
  { activeMembers := activeMembers
    attendedLastMeeting := attendedLastMeeting
    attendanceRate := roundToTwoDecimals meetingAttendancePercentage
    yearlyAverage := roundToTwoDecimals yearlyAverageAttendance
    pipelinerPresentCount := pipelinerPresentTotal
    pipelinerAttendanceRate := roundToTwoDecimals pipelinerAttendanceRate
    pipeliners := pipelinersCount
    meetingAttendanceCount := uniqueMonthlyAttendees.length
    meetingAttendancePercentage := roundToTwoDecimals meetingAttendancePercentage }

/-! Counting lemmas for the ledger list under point updates. -/

theorem countP_set_balance {α : Type} (p : α → Bool) :
    ∀ (l : List α) (i : Nat) (old nv : α), l[i]? = some old →
      (l.set i nv).countP p + (if p old then 1 else 0) =
        l.countP p + (if p nv then 1 else 0) := by
  intro l
  induction l with
  | nil => intro i old nv h; simp at h
  | cons a t ih =>
    intro i old nv h
    cases i with
    | zero =>
      have ha : a = old := by simpa using h
      subst ha
      simp only [List.set_cons_zero, List.countP_cons]
      omega
    | succ n =>
      have ht : t[n]? = some old := by simpa using h
      have := ih n old nv ht
      simp only [List.set_cons_succ, List.countP_cons]
      omega

theorem countP_eraseIdx_balance {α : Type} (p : α → Bool) :
    ∀ (l : List α) (i : Nat) (old : α), l[i]? = some old →
      (l.eraseIdx i).countP p + (if p old then 1 else 0) = l.countP p := by
  intro l
  induction l with
  | nil => intro i old h; simp at h
  | cons a t ih =>
    intro i old h
    cases i with
    | zero =>
      have ha : a = old := by simpa using h
      subst ha
      simp only [List.eraseIdx_cons_zero, List.countP_cons]
    | succ n =>
      have ht : t[n]? = some old := by simpa using h
      have := ih n old ht
      simp only [List.eraseIdx_cons_succ, List.countP_cons]
      omega

theorem countP_set_eq {α : Type} (p : α → Bool) (l : List α) (i : Nat) (old nv : α)
    (h : l[i]? = some old) (h1 : p old = false) (h2 : p nv = false) :
    (l.set i nv).countP p = l.countP p := by
  have := countP_set_balance p l i old nv h
  simp [h1, h2] at this
  omega

theorem countP_eraseIdx_eq {α : Type} (p : α → Bool) (l : List α) (i : Nat) (old : α)
    (h : l[i]? = some old) (h1 : p old = false) :
    (l.eraseIdx i).countP p = l.countP p := by
  have := countP_eraseIdx_balance p l i old h
  simp [h1] at this
  omega

theorem countP_append_single {α : Type} (p : α → Bool) (l : List α) (x : α)
    (h : p x = false) : (l ++ [x]).countP p = l.countP p := by
  simp [List.countP_append, List.countP_cons, h]

/-! Projection facts: which tables each refresh or trigger step touches. -/

theorem refresh_guest_attendance (db : DB) (g : Id) :
    (refresh_guest_meeting_count db g).attendance = db.attendance := rfl

theorem refresh_guest_pipeliners (db : DB) (g : Id) :
    (refresh_guest_meeting_count db g).pipeliners = db.pipeliners := rfl

theorem refresh_pip_attendance (db : DB) (p : Id) :
    (refresh_pipeliner_eligibility db p).attendance = db.attendance := rfl

theorem refresh_pip_guests (db : DB) (p : Id) :
    (refresh_pipeliner_eligibility db p).guests = db.guests := rfl

theorem refreshPipList_guests (db : DB) (ps : List Id) :
    (refreshPipList db ps).guests = db.guests := by
  induction ps generalizing db with
  | nil => rfl
  | cons a t ih => simpa [refreshPipList] using ih (refresh_pipeliner_eligibility db a)

theorem refreshPipList_attendance (db : DB) (ps : List Id) :
    (refreshPipList db ps).attendance = db.attendance := by
  induction ps generalizing db with
  | nil => rfl
  | cons a t ih => simpa [refreshPipList] using ih (refresh_pipeliner_eligibility db a)

theorem trgPipInsert_guests (db : DB) (row : AttendanceRow) :
    (trgPipInsert db row).guests = db.guests := by
  unfold trgPipInsert
  cases row.pipeliner_id <;> rfl

theorem trgPipInsert_attendance (db : DB) (row : AttendanceRow) :
    (trgPipInsert db row).attendance = db.attendance := by
  unfold trgPipInsert
  cases row.pipeliner_id <;> rfl

theorem trgPipUpdate_guests (db : DB) (old nv : AttendanceRow) :
    (trgPipUpdate db old nv).guests = db.guests := by
  unfold trgPipUpdate
  cases hn : nv.pipeliner_id <;> cases ho : old.pipeliner_id <;>
    simp only [] <;> (try split) <;> rfl

theorem trgPipUpdate_attendance (db : DB) (old nv : AttendanceRow) :
    (trgPipUpdate db old nv).attendance = db.attendance := by
  unfold trgPipUpdate
  cases hn : nv.pipeliner_id <;> cases ho : old.pipeliner_id <;>
    simp only [] <;> (try split) <;> rfl

theorem trgPipDelete_guests (db : DB) (old : AttendanceRow) :
    (trgPipDelete db old).guests = db.guests := by
  unfold trgPipDelete
  cases old.pipeliner_id <;> rfl

theorem trgPipDelete_attendance (db : DB) (old : AttendanceRow) :
    (trgPipDelete db old).attendance = db.attendance := by
  unfold trgPipDelete
  cases old.pipeliner_id <;> rfl

theorem trgGuestInsert_pipeliners (db : DB) (row : AttendanceRow) :
    (trgGuestInsert db row).pipeliners = db.pipeliners := by
  unfold trgGuestInsert
  cases row.guest_id <;> rfl

theorem trgGuestUpdate_pipeliners (db : DB) (old nv : AttendanceRow) :
    (trgGuestUpdate db old nv).pipeliners = db.pipeliners := by
  unfold trgGuestUpdate
  cases hn : nv.guest_id <;> cases ho : old.guest_id <;>
    simp only [] <;> (try split) <;> rfl

theorem trgGuestDelete_pipeliners (db : DB) (old : AttendanceRow) :
    (trgGuestDelete db old).pipeliners = db.pipeliners := by
  unfold trgGuestDelete
  cases old.guest_id <;> rfl

/-! Transfer lemmas: the invariants only read specific tables. -/

theorem guestInv_of_eq {db1 db2 : DB} (hg : db2.guests = db1.guests)
    (ha : db2.attendance = db1.attendance) (hi : guestInv db1) : guestInv db2 := by
  unfold guestInv at *
  rw [hg, ha]
  exact hi

theorem pipInv_of_eq {db1 db2 : DB} (hp : db2.pipeliners = db1.pipeliners)
    (hi : pipelinerFlagInv db1) : pipelinerFlagInv db2 := by
  unfold pipelinerFlagInv at *
  rw [hp]
  exact hi

theorem isGuestPresent_of_ne (g : Id) (row : AttendanceRow)
    (h : row.guest_id ≠ some g) : isGuestPresent g row = false := by
  unfold isGuestPresent
  simp [h]

/-- A refresh makes the invariant hold provided every guest row that the
refresh does not touch already carries the right count. -/
theorem guestInv_refresh (db : DB) (x : Id)
    (h : ∀ g ∈ db.guests, g.id ≠ x → g.total_meetings = guestPresentCount db.attendance g.id) :
    guestInv (refresh_guest_meeting_count db x) := by
  intro g hg
  rw [refresh_guest_attendance]
  have hmem : g ∈ db.guests.map (fun row =>
      if row.id == x then { row with total_meetings := guestPresentCount db.attendance x }
      else row) := hg
  obtain ⟨g0, hg0, hEq⟩ := List.mem_map.mp hmem
  by_cases hid : g0.id = x
  · subst hEq
    simp [hid]
  · subst hEq
    have : (g0.id == x) = false := by simpa using hid
    simp only [this, Bool.false_eq_true, if_false]
    exact h g0 hg0 hid

/-- Inserting an attendance row preserves the guest counter invariant: the
insert trigger refreshes the referenced guest and no other count changes. -/
theorem guestInv_insertAttendance (db : DB) (h : guestInv db) (row : AttendanceRow) :
    guestInv (insertAttendance db row) := by
  unfold insertAttendance
  apply guestInv_of_eq (trgPipInsert_guests _ _) (trgPipInsert_attendance _ _)
  unfold trgGuestInsert
  cases hrow : row.guest_id with
  | none =>
    intro g hg
    have hcnt : guestPresentCount (db.attendance ++ [row]) g.id =
        guestPresentCount db.attendance g.id := by
      unfold guestPresentCount
      exact countP_append_single _ _ _ (isGuestPresent_of_ne _ _ (by simp [hrow]))
    simpa [hcnt] using h g hg
  | some x =>
    apply guestInv_refresh
    intro g hg hne
    have hcnt : guestPresentCount (db.attendance ++ [row]) g.id =
        guestPresentCount db.attendance g.id := by
      unfold guestPresentCount
      refine countP_append_single _ _ _ (isGuestPresent_of_ne _ _ ?_)
      rw [hrow]
      simpa using fun hxg => hne hxg.symm
    simpa [hcnt] using h g hg

/-- Deleting an attendance row preserves the guest counter invariant: the
delete trigger refreshes the guest of the deleted row. -/
theorem guestInv_deleteAttendance (db : DB) (h : guestInv db) (i : Nat) :
    guestInv (deleteAttendance db i) := by
  unfold deleteAttendance
  cases hidx : db.attendance[i]? with
  | none => exact h
  | some old =>
    apply guestInv_of_eq (trgPipDelete_guests _ _) (trgPipDelete_attendance _ _)
    unfold trgGuestDelete
    cases hold : old.guest_id with
    | none =>
      intro g hg
      have hcnt : guestPresentCount (db.attendance.eraseIdx i) g.id =
          guestPresentCount db.attendance g.id := by
        unfold guestPresentCount
        exact countP_eraseIdx_eq _ _ _ _ hidx (isGuestPresent_of_ne _ _ (by simp [hold]))
      simpa [hcnt] using h g hg
    | some o =>
      apply guestInv_refresh
      intro g hg hne
      have hcnt : guestPresentCount (db.attendance.eraseIdx i) g.id =
          guestPresentCount db.attendance g.id := by
        unfold guestPresentCount
        refine countP_eraseIdx_eq _ _ _ _ hidx (isGuestPresent_of_ne _ _ ?_)
        rw [hold]
        simpa using fun hog => hne hog.symm
      simpa [hcnt] using h g hg

/-- Updating an attendance row preserves the guest counter invariant provided
the update does not drop a non-null guest reference to null (the one shape the
trigger guard misses, by the SQL null-comparison semantics in sqlNeq). -/
theorem guestInv_updateAttendance (db : DB) (h : guestInv db) (i : Nat)
    (nv : AttendanceRow)
    (hguard : ∀ old, db.attendance[i]? = some old →
      old.guest_id.isSome = true → nv.guest_id.isSome = true) :
    guestInv (updateAttendance db i nv) := by
  unfold updateAttendance
  cases hidx : db.attendance[i]? with
  | none => exact h
  | some old =>
    apply guestInv_of_eq (trgPipUpdate_guests _ _ _) (trgPipUpdate_attendance _ _ _)
    unfold trgGuestUpdate
    cases hn : nv.guest_id with
    | none =>
      cases hold : old.guest_id with
      | some o =>
        exfalso
        have hcontra := hguard old hidx
        rw [hold, hn] at hcontra
        simp at hcontra
      | none =>
        intro g hg
        have hcnt : guestPresentCount (db.attendance.set i nv) g.id =
            guestPresentCount db.attendance g.id := by
          unfold guestPresentCount
          exact countP_set_eq _ _ _ _ _ hidx
            (isGuestPresent_of_ne _ _ (by simp [hold]))
            (isGuestPresent_of_ne _ _ (by simp [hn]))
        simpa [hcnt] using h g hg
    | some n =>
      cases hold : old.guest_id with
      | none =>
        simp only [sqlNeq]
        apply guestInv_refresh
        intro g hg hne
        have hcnt : guestPresentCount (db.attendance.set i nv) g.id =
            guestPresentCount db.attendance g.id := by
          unfold guestPresentCount
          refine countP_set_eq _ _ _ _ _ hidx
            (isGuestPresent_of_ne _ _ (by simp [hold])) (isGuestPresent_of_ne _ _ ?_)
          rw [hn]
          simpa using fun hng => hne hng.symm
        simpa [hcnt] using h g hg
      | some o =>
        by_cases hon : o = n
        · subst hon
          simp only [sqlNeq, bne_self_eq_false, if_false]
          apply guestInv_refresh
          intro g hg hne
          have hcnt : guestPresentCount (db.attendance.set i nv) g.id =
              guestPresentCount db.attendance g.id := by
            unfold guestPresentCount
            refine countP_set_eq _ _ _ _ _ hidx (isGuestPresent_of_ne _ _ ?_)
              (isGuestPresent_of_ne _ _ ?_)
            · rw [hold]
              simpa using fun hog => hne hog.symm
            · rw [hn]
              simpa using fun hng => hne hng.symm
          simpa [hcnt] using h g hg
        · have hbne : (o != n) = true := by simpa using hon
          simp only [sqlNeq, hbne, if_true]
          apply guestInv_refresh
          intro g hgmem hne
          rw [refresh_guest_attendance]
          have hgmem0 : g ∈ (refresh_guest_meeting_count
              { db with attendance := db.attendance.set i nv } n).guests := hgmem
          obtain ⟨g0, hg0, hEq⟩ := List.mem_map.mp hgmem0
          by_cases hid : g0.id = n
          · subst hEq
            simp [hid]
          · subst hEq
            have hfalse : (g0.id == n) = false := by simpa using hid
            simp only [hfalse, Bool.false_eq_true, if_false] at hne ⊢
            have hcnt : guestPresentCount (db.attendance.set i nv) g0.id =
                guestPresentCount db.attendance g0.id := by
              unfold guestPresentCount
              refine countP_set_eq _ _ _ _ _ hidx (isGuestPresent_of_ne _ _ ?_)
                (isGuestPresent_of_ne _ _ ?_)
              · rw [hold]
                simpa using fun hog => hne hog.symm
              · rw [hn]
                simpa using fun hng => hid hng.symm
            rw [hcnt]
            exact h g0 hg0

/-- Charity-event mutations never touch the guests or attendance tables, so
they preserve the guest counter invariant. -/
theorem guestInv_insertCharityEvent (db : DB) (h : guestInv db) (row : CharityEventRow) :
    guestInv (insertCharityEvent db row) := by
  unfold insertCharityEvent trgCharityInsert
  exact guestInv_of_eq (refreshPipList_guests _ _) (refreshPipList_attendance _ _)
    (guestInv_of_eq rfl rfl h)

theorem guestInv_updateCharityEvent (db : DB) (h : guestInv db) (i : Nat)
    (nv : CharityEventRow) : guestInv (updateCharityEvent db i nv) := by
  unfold updateCharityEvent
  cases db.charity_events[i]? with
  | none => exact h
  | some old =>
    unfold trgCharityUpdate
    exact guestInv_of_eq (refreshPipList_guests _ _) (refreshPipList_attendance _ _)
      (guestInv_of_eq (refreshPipList_guests _ _) (refreshPipList_attendance _ _)
        (guestInv_of_eq rfl rfl h))

theorem guestInv_deleteCharityEvent (db : DB) (h : guestInv db) (i : Nat) :
    guestInv (deleteCharityEvent db i) := by
  unfold deleteCharityEvent
  cases db.charity_events[i]? with
  | none => exact h
  | some old =>
    unfold trgCharityDelete
    exact guestInv_of_eq (refreshPipList_guests _ _) (refreshPipList_attendance _ _)
      (guestInv_of_eq rfl rfl h)

/-- The pipeliner refresh writes the recomputed counters together with the
flag computed from them, so the flag-versus-stored-counters invariant is
restored on the refreshed row and untouched elsewhere. -/
theorem pipInv_refresh (db : DB) (x : Id) (h : pipelinerFlagInv db) :
    pipelinerFlagInv (refresh_pipeliner_eligibility db x) := by
  intro p hp
  simp only [refresh_pipeliner_eligibility] at hp
  obtain ⟨p0, hp0, hEq⟩ := List.mem_map.mp hp
  by_cases hid : p0.id = x
  · subst hEq
    simp [hid]
  · subst hEq
    have hfalse : (p0.id == x) = false := by simpa using hid
    simp only [hfalse, Bool.false_eq_true, if_false]
    exact h p0 hp0

theorem pipInv_refreshPipList (db : DB) (h : pipelinerFlagInv db) (ps : List Id) :
    pipelinerFlagInv (refreshPipList db ps) := by
  induction ps generalizing db with
  | nil => exact h
  | cons a t ih => exact ih (refresh_pipeliner_eligibility db a) (pipInv_refresh db a h)

theorem pipInv_trgPipInsert (db : DB) (h : pipelinerFlagInv db) (row : AttendanceRow) :
    pipelinerFlagInv (trgPipInsert db row) := by
  unfold trgPipInsert
  cases row.pipeliner_id with
  | none => exact h
  | some p => exact pipInv_refresh db p h

theorem pipInv_trgPipUpdate (db : DB) (h : pipelinerFlagInv db) (old nv : AttendanceRow) :
    pipelinerFlagInv (trgPipUpdate db old nv) := by
  unfold trgPipUpdate
  cases hn : nv.pipeliner_id with
  | none =>
    cases ho : old.pipeliner_id with
    | none => exact h
    | some o => simpa [sqlNeq] using h
  | some n =>
    have h1 := pipInv_refresh db n h
    cases ho : old.pipeliner_id with
    | none => exact h1
    | some o =>
      by_cases hon : o = n
      · subst hon
        simpa [sqlNeq] using h1
      · have hbne : (o != n) = true := by simpa using hon
        simp only [sqlNeq, hbne, if_true]
        exact pipInv_refresh _ o h1

theorem pipInv_trgPipDelete (db : DB) (h : pipelinerFlagInv db) (old : AttendanceRow) :
    pipelinerFlagInv (trgPipDelete db old) := by
  unfold trgPipDelete
  cases old.pipeliner_id with
  | none => exact h
  | some o => exact pipInv_refresh db o h

theorem pipInv_insertAttendance (db : DB) (h : pipelinerFlagInv db) (row : AttendanceRow) :
    pipelinerFlagInv (insertAttendance db row) := by
  unfold insertAttendance
  dsimp only
  apply pipInv_trgPipInsert
  apply pipInv_of_eq (trgGuestInsert_pipeliners _ _)
  exact h

theorem pipInv_updateAttendance (db : DB) (h : pipelinerFlagInv db) (i : Nat)
    (nv : AttendanceRow) : pipelinerFlagInv (updateAttendance db i nv) := by
  unfold updateAttendance
  cases db.attendance[i]? with
  | none => exact h
  | some old =>
    dsimp only
    apply pipInv_trgPipUpdate
    apply pipInv_of_eq (trgGuestUpdate_pipeliners _ _ _)
    exact h

theorem pipInv_deleteAttendance (db : DB) (h : pipelinerFlagInv db) (i : Nat) :
    pipelinerFlagInv (deleteAttendance db i) := by
  unfold deleteAttendance
  cases db.attendance[i]? with
  | none => exact h
  | some old =>
    dsimp only
    apply pipInv_trgPipDelete
    apply pipInv_of_eq (trgGuestDelete_pipeliners _ _)
    exact h

theorem pipInv_insertCharityEvent (db : DB) (h : pipelinerFlagInv db)
    (row : CharityEventRow) : pipelinerFlagInv (insertCharityEvent db row) := by
  unfold insertCharityEvent trgCharityInsert
  exact pipInv_refreshPipList
    { db with charity_events := db.charity_events ++ [row] } (pipInv_of_eq rfl h) _

theorem pipInv_updateCharityEvent (db : DB) (h : pipelinerFlagInv db) (i : Nat)
    (nv : CharityEventRow) : pipelinerFlagInv (updateCharityEvent db i nv) := by
  unfold updateCharityEvent
  cases db.charity_events[i]? with
  | none => exact h
  | some old =>
    unfold trgCharityUpdate
    exact pipInv_refreshPipList _
      (pipInv_refreshPipList { db with charity_events := db.charity_events.set i nv }
        (pipInv_of_eq rfl h) _) _

theorem pipInv_deleteCharityEvent (db : DB) (h : pipelinerFlagInv db) (i : Nat) :
    pipelinerFlagInv (deleteCharityEvent db i) := by
  unfold deleteCharityEvent
  cases db.charity_events[i]? with
  | none => exact h
  | some old =>
    unfold trgCharityDelete
    exact pipInv_refreshPipList
      { db with charity_events := db.charity_events.eraseIdx i } (pipInv_of_eq rfl h) _

/-- The guest promotion inserts its pipeliner row with the eligibility flag
false and charity_events_count 0, which satisfies the flag invariant, and it
never edits existing pipeliner counters, so every outcome of the operation
preserves the invariant. -/
theorem pipInv_promoteGuestToPipeliner (db : DB) (h : pipelinerFlagInv db)
    (guest : Option GuestView) (sponsorId : Option Id) (notes : Option String)
    (today : String) (newId : Id) (ok1 ok2 : Bool) :
    pipelinerFlagInv (promoteGuestToPipeliner db guest sponsorId notes today newId ok1 ok2).1 := by
  unfold promoteGuestToPipeliner
  cases guest with
  | none => exact h
  | some gv =>
    cases sponsorId with
    | none => exact h
    | some sid =>
      by_cases h1 : ok1 = true
      · simp only [h1, if_true]
        by_cases h2 : ok2 = true
        · simp only [h2, if_true]
          intro p hp
          rcases List.mem_append.mp hp with hmem | hmem
          · exact h p hmem
          · have hp2 : p = {
              id := newId
              full_name := gv.full_name
              email := gv.email
              phone := gv.phone
              promoted_from_guest_date := some today
              guest_meetings_count := max gv.meeting_count 3
              business_meetings_count := gv.present_count
              charity_events_count := 0
              is_eligible_for_membership := false
              status := "active"
              sponsored_by := some sid
              notes := notes } := by simpa using hmem
            subst hp2
            simp
        · have h2f : ok2 = false := by simpa using h2
          simp only [h2f, Bool.false_eq_true, if_false]
          intro p hp
          have hmem := (List.mem_filter.mp hp).1
          rcases List.mem_append.mp hmem with hmem2 | hmem2
          · exact h p hmem2
          · have hp2 : p = {
              id := newId
              full_name := gv.full_name
              email := gv.email
              phone := gv.phone
              promoted_from_guest_date := some today
              guest_meetings_count := max gv.meeting_count 3
              business_meetings_count := gv.present_count
              charity_events_count := 0
              is_eligible_for_membership := false
              status := "active"
              sponsored_by := some sid
              notes := notes } := by simpa using hmem2
            subst hp2
            simp
      · have h1f : ok1 = false := by simpa using h1
        simp only [h1f, Bool.false_eq_true, if_false]
        exact h

/-! Concrete fixtures used by the counterexamples and witnesses. -/

/-- A guest with zero present attendance records. -/
def exGuestRow : GuestRow :=
  { id := 1, full_name := "G", status := "active", total_meetings := 0 }

/-- A database holding only that guest. -/
def exDbGuest : DB := { guests := [exGuestRow] }

/-- Promotion of that guest, both store writes succeeding. -/
def exPromotedGuest : DB × Option PromoteGuestError :=
  promoteGuestToPipeliner exDbGuest (some (guestViewRow exDbGuest exGuestRow))
    (some 5) none "2026-03-01" 7 true true

/-- A pipeliner whose cached flag and stored counters agree at eligible values. -/
def exPipRow : PipelinerRow :=
  { id := 1, full_name := "P", email := some "p@x", business_meetings_count := 3,
    charity_events_count := 1, is_eligible_for_membership := true, status := "active" }

/-- A database holding only that pipeliner. -/
def exDbPip : DB := { pipeliners := [exPipRow] }

/-- Promotion of that pipeliner to member, both store writes succeeding. -/
def exPromotedPip : DB × Option PromoteMemberError :=
  promotePipelinerToMember exDbPip 1 "RT-099" "2026-01-01" 2 true true

/-- An inactive guest with no attendance at all. -/
def exInactiveGuest : GuestRow := { id := 1, status := "inactive", total_meetings := 0 }

/-- A database holding only the inactive guest. -/
def exDbInactive : DB := { guests := [exInactiveGuest] }

/-- Promotion of the inactive, ineligible guest. -/
def exPromoteIneligible : DB × Option PromoteGuestError :=
  promoteGuestToPipeliner exDbInactive (some (guestViewRow exDbInactive exInactiveGuest))
    (some 9) none "2026-03-01" 3 true true

/-- A guest database satisfying the counter invariant, used as witness input. -/
def exDbW : DB :=
  { guests := [{ id := 1, total_meetings := 1 }]
    meetings := [{ id := 9 }]
    attendance := [{ id := 50, meeting_id := 9, guest_id := some 1,
                     status := AttStatus.present }] }

/-- C1 counterexample input: the claim quantifies over operations including the
guest promotion, and promoting a guest with zero present records stamps
total_meetings to 3. -/
theorem C1_counterexample :
    guestInv exDbGuest ∧ exPromotedGuest.2 = none ∧ ¬ guestInv exPromotedGuest.1 := by
  decide

/-- C1 (amended): the guest counter invariant is preserved by every attendance
insert and delete, by every attendance update that does not drop a non-null
guest reference to null, and by every charity-event mutation; the guest
promotion operation is excluded because it stamps total_meetings to
max(present count, 3). -/
theorem C1_guest_counter_invariant (db : DB) (h : guestInv db) :
    (∀ row, guestInv (insertAttendance db row)) ∧
    (∀ i, guestInv (deleteAttendance db i)) ∧
    (∀ i nv, (∀ old, db.attendance[i]? = some old →
        old.guest_id.isSome = true → nv.guest_id.isSome = true) →
      guestInv (updateAttendance db i nv)) ∧
    (∀ row, guestInv (insertCharityEvent db row)) ∧
    (∀ i nv, guestInv (updateCharityEvent db i nv)) ∧
    (∀ i, guestInv (deleteCharityEvent db i)) :=
  ⟨fun row => guestInv_insertAttendance db h row,
   fun i => guestInv_deleteAttendance db h i,
   fun i nv hg => guestInv_updateAttendance db h i nv hg,
   fun row => guestInv_insertCharityEvent db h row,
   fun i nv => guestInv_updateCharityEvent db h i nv,
   fun i => guestInv_deleteCharityEvent db h i⟩

/-- Witness for C1 at a concrete database: the invariant holds and is kept by
an attendance insert. -/
theorem C1_witness :
    guestInv exDbW ∧
    guestInv (insertAttendance exDbW
      { id := 51, meeting_id := 9, guest_id := some 1, status := AttStatus.present }) :=
  ⟨by decide, (C1_guest_counter_invariant exDbW (by decide)).1 _⟩

/-- C2 counterexample input: promoting an eligible pipeliner to member clears
the cached flag while leaving the stored counters at (3, 1), so the flag no
longer equals the predicate over the counters. -/
theorem C2_counterexample :
    pipelinerFlagInv exDbPip ∧ exPromotedPip.2 = none ∧ ¬ pipelinerFlagInv exPromotedPip.1 := by
  decide

/-- C2 (amended): the cached flag equals the eligibility predicate over the
stored counters after every attendance or charity-event ledger mutation (the
refresh writes flag and counters together), and the guest promotion inserts a
consistent row; the member promotion is excluded because it clears the flag
without touching the counters. -/
theorem C2_flag_invariant (db : DB) (h : pipelinerFlagInv db) :
    (∀ row, pipelinerFlagInv (insertAttendance db row)) ∧
    (∀ i nv, pipelinerFlagInv (updateAttendance db i nv)) ∧
    (∀ i, pipelinerFlagInv (deleteAttendance db i)) ∧
    (∀ row, pipelinerFlagInv (insertCharityEvent db row)) ∧
    (∀ i nv, pipelinerFlagInv (updateCharityEvent db i nv)) ∧
    (∀ i, pipelinerFlagInv (deleteCharityEvent db i)) ∧
    (∀ guest sponsorId notes today newId ok1 ok2,
      pipelinerFlagInv (promoteGuestToPipeliner db guest sponsorId notes today newId ok1 ok2).1) :=
  ⟨fun row => pipInv_insertAttendance db h row,
   fun i nv => pipInv_updateAttendance db h i nv,
   fun i => pipInv_deleteAttendance db h i,
   fun row => pipInv_insertCharityEvent db h row,
   fun i nv => pipInv_updateCharityEvent db h i nv,
   fun i => pipInv_deleteCharityEvent db h i,
   fun guest sponsorId notes today newId ok1 ok2 =>
     pipInv_promoteGuestToPipeliner db h guest sponsorId notes today newId ok1 ok2⟩

/-- Witness for C2 at a concrete database: the flag invariant holds and is
kept by an attendance insert for the pipeliner. -/
theorem C2_witness :
    pipelinerFlagInv exDbPip ∧
    pipelinerFlagInv (insertAttendance exDbPip
      { id := 52, meeting_id := 9, pipeliner_id := some 1, status := AttStatus.present }) :=
  ⟨by decide, (C2_flag_invariant exDbPip (by decide)).1 _⟩

/-- C3: if the guest status update fails after the pipeliner insert succeeded,
handleConfirm deletes the inserted pipeliner row by id before surfacing the
error, leaving the database exactly as before. -/
theorem C3_promote_guest_compensation (db : DB) (gv : GuestView) (sid : Id)
    (notes : Option String) (today : String) (newId : Id)
    (hfresh : ∀ q ∈ db.pipeliners, q.id ≠ newId) :
    promoteGuestToPipeliner db (some gv) (some sid) notes today newId true false =
      (db, some PromoteGuestError.guestUpdateFailed) := by
  unfold promoteGuestToPipeliner
  have hall : ∀ q ∈ db.pipeliners, (q.id != newId) = true := fun q hq => by
    simpa using hfresh q hq
  simp [List.filter_append, List.filter_eq_self.mpr hall]

/-- Witness for C3: the compensation theorem applied to the concrete
one-guest database. -/
theorem C3_witness :
    promoteGuestToPipeliner exDbGuest (some (guestViewRow exDbGuest exGuestRow))
      (some 5) none "2026-03-01" 7 true false =
      (exDbGuest, some PromoteGuestError.guestUpdateFailed) :=
  C3_promote_guest_compensation exDbGuest (guestViewRow exDbGuest exGuestRow) 5 none
    "2026-03-01" 7 (by decide)

/-- A pipeliner created directly with status became_member, a cached eligible
flag and an email no member carries (usePipeliners.createPipeliner accepts
such payloads). -/
def exDbBecameMember : DB :=
  createPipeliner {}
    { full_name := "Pat", email := some "pat@x", business_meetings_count := some 3,
      charity_events_count := some 1, is_eligible_for_membership := some true,
      status := some "became_member" } 1

/-- A promotion attempt on the already-promoted pipeliner. -/
def exRepromote : DB × Option PromoteMemberError :=
  promotePipelinerToMember exDbBecameMember 1 "RT-100" "2026-02-01" 2 true true

/-- C4 counterexample input: promotePipelinerToMember has no status
precondition, so an attempt on a pipeliner whose status is already
became_member passes the gate and succeeds, inserting a new member row. -/
theorem C4_counterexample :
    (∃ q ∈ exDbBecameMember.pipeliners, q.id = 1 ∧ q.status = "became_member") ∧
    exRepromote.2 = none ∧ exRepromote.1.members.length = 1 := by
  decide

/-- C4 (amended): in the genuine second-attempt scenario the pipeliner email
already belongs to a member row, so the member insert is rejected by the
unique constraint: the attempt fails (with a uniqueness error, not a
status-precondition error) and no new member row is inserted. -/
theorem C4_second_attempt_no_new_member (db : DB) (pid : Id) (mn jd : String)
    (newId : Id) (okU : Bool) (p : PipelinerRow) (e : String)
    (hfind : db.pipeliners.find? (fun q => q.id == pid) = some p)
    (hemail : p.email = some e)
    (hdup : ∃ m ∈ db.members, m.email = e) :
    (promotePipelinerToMember db pid mn jd newId true okU).1.members = db.members ∧
      (promotePipelinerToMember db pid mn jd newId true okU).2.isSome = true := by
  unfold promotePipelinerToMember
  rw [hfind]
  dsimp only [pipelinerViewRow]
  have hdupb : db.members.any
      (fun m => m.email == e || m.member_number == some (strTrim mn)) = true := by
    obtain ⟨m, hm, he⟩ := hdup
    exact List.any_eq_true.mpr ⟨m, hm, by simp [he]⟩
  rw [hemail]
  split
  · exact ⟨rfl, rfl⟩
  · split
    · exact ⟨rfl, rfl⟩
    · split
      · exact ⟨rfl, rfl⟩
      · simp [hdupb]

/-- A member row already carrying the email of the eligible pipeliner. -/
def exDbDupEmail : DB :=
  { members := [{ id := 9, full_name := "M", email := "p@x",
                  member_number := some "RT-001", join_date := "2025-01-01" }]
    pipeliners := [exPipRow] }

/-- Witness for C4: a second-attempt shaped input where the duplicate email
blocks the insert. -/
theorem C4_witness :
    (promotePipelinerToMember exDbDupEmail 1 "RT-002" "2026-01-01" 3 true true).1.members =
        exDbDupEmail.members ∧
      (promotePipelinerToMember exDbDupEmail 1 "RT-002" "2026-01-01" 3 true true).2.isSome = true :=
  C4_second_attempt_no_new_member exDbDupEmail 1 "RT-002" "2026-01-01" 3 true exPipRow "p@x"
    (by decide) (by decide) (by decide)

/-- C5 counterexample input: a guest who is inactive, has zero present
attendance and is not eligible is still promoted successfully, with state
mutated and no NotEligible signal. -/
theorem C5_counterexample :
    (guestViewRow exDbInactive exInactiveGuest).present_count = 0 ∧
    (guestViewRow exDbInactive exInactiveGuest).eligible_for_pipeliner = false ∧
    exInactiveGuest.status ≠ "active" ∧
    exPromoteIneligible.2 = none ∧
    exPromoteIneligible.1 ≠ exDbInactive := by
  decide

/-- C5 (amended): handleConfirm succeeds for every selected guest with a
chosen sponsor whenever the two store writes succeed; it checks neither the
guest status nor any eligibility gate, and it has no NotEligible outcome. -/
theorem C5_promote_guest_unconditional (db : DB) (gv : GuestView) (sid : Id)
    (notes : Option String) (today : String) (newId : Id) :
    (promoteGuestToPipeliner db (some gv) (some sid) notes today newId true true).2 = none := by
  unfold promoteGuestToPipeliner
  simp

/-- C6: the two eligibility gates of the views are exactly the conjunction of
the two thresholds: (3 present, 1 event) is eligible, (2 present, 2 events) is
not, and in general the gate holds exactly when both thresholds are met. -/
theorem C6_eligibility_gates (db : DB) (g1 g2 : GuestRow) (q1 q2 : PipelinerRow)
    (h1 : guestPresentCount db.attendance g1.id = 3)
    (h2 : guestEventCount db.guest_events g1.id = 1)
    (h3 : guestPresentCount db.attendance g2.id = 2)
    (h4 : guestEventCount db.guest_events g2.id = 2)
    (h5 : pipelinerPresentCount db.attendance q1.id = 3)
    (h6 : pipelinerCharityCount db.charity_events q1.id = 1)
    (h7 : pipelinerPresentCount db.attendance q2.id = 2)
    (h8 : pipelinerCharityCount db.charity_events q2.id = 2) :
    (guestViewRow db g1).eligible_for_pipeliner = true ∧
    (guestViewRow db g2).eligible_for_pipeliner = false ∧
    (pipelinerViewRow db q1).meets_requirements = true ∧
    (pipelinerViewRow db q2).meets_requirements = false ∧
    (∀ g : GuestRow, (guestViewRow db g).eligible_for_pipeliner = true ↔
      3 ≤ guestPresentCount db.attendance g.id ∧ 1 ≤ guestEventCount db.guest_events g.id) ∧
    (∀ q : PipelinerRow, (pipelinerViewRow db q).meets_requirements = true ↔
      3 ≤ pipelinerPresentCount db.attendance q.id ∧
        1 ≤ pipelinerCharityCount db.charity_events q.id) := by
  refine ⟨?_, ?_, ?_, ?_, ?_, ?_⟩ <;>
    simp [guestViewRow, pipelinerViewRow, h1, h2, h3, h4, h5, h6, h7, h8]

/-- A database realizing all four boundary configurations at once: guest 1 has
3 present rows and 1 guest event, guest 2 has 2 present rows and 2 guest
events, pipeliner 3 has 3 present rows and 1 charity event, pipeliner 4 has
2 present rows and 2 charity events. -/
def exDbGates : DB :=
  { guests := [{ id := 1 }, { id := 2 }]
    pipeliners := [{ id := 3 }, { id := 4 }]
    meetings := [{ id := 21 }, { id := 22 }, { id := 23 }]
    attendance := [
      { id := 101, meeting_id := 21, guest_id := some 1, status := AttStatus.present },
      { id := 102, meeting_id := 22, guest_id := some 1, status := AttStatus.present },
      { id := 103, meeting_id := 23, guest_id := some 1, status := AttStatus.present },
      { id := 104, meeting_id := 21, guest_id := some 2, status := AttStatus.present },
      { id := 105, meeting_id := 22, guest_id := some 2, status := AttStatus.present },
      { id := 106, meeting_id := 21, pipeliner_id := some 3, status := AttStatus.present },
      { id := 107, meeting_id := 22, pipeliner_id := some 3, status := AttStatus.present },
      { id := 108, meeting_id := 23, pipeliner_id := some 3, status := AttStatus.present },
      { id := 109, meeting_id := 21, pipeliner_id := some 4, status := AttStatus.present },
      { id := 110, meeting_id := 22, pipeliner_id := some 4, status := AttStatus.present } ]
    charity_events := [
      { id := 61, participant_ids := some [3, 4] },
      { id := 62, participant_ids := some [4] } ]
    guest_events := [
      { id := 71, guest_id := 1 },
      { id := 72, guest_id := 2 },
      { id := 73, guest_id := 2 } ] }

/-- Witness for C6 at the concrete boundary database. -/
theorem C6_witness :
    (guestViewRow exDbGates { id := 1 }).eligible_for_pipeliner = true ∧
    (guestViewRow exDbGates { id := 2 }).eligible_for_pipeliner = false ∧
    (pipelinerViewRow exDbGates { id := 3 }).meets_requirements = true ∧
    (pipelinerViewRow exDbGates { id := 4 }).meets_requirements = false ∧
    (∀ g : GuestRow, (guestViewRow exDbGates g).eligible_for_pipeliner = true ↔
      3 ≤ guestPresentCount exDbGates.attendance g.id ∧
        1 ≤ guestEventCount exDbGates.guest_events g.id) ∧
    (∀ q : PipelinerRow, (pipelinerViewRow exDbGates q).meets_requirements = true ↔
      3 ≤ pipelinerPresentCount exDbGates.attendance q.id ∧
        1 ≤ pipelinerCharityCount exDbGates.charity_events q.id) :=
  C6_eligibility_gates exDbGates { id := 1 } { id := 2 } { id := 3 } { id := 4 }
    (by decide) (by decide) (by decide) (by decide) (by decide) (by decide)
    (by decide) (by decide)

/-- The member row inserted by a successful promotion. -/
def promotedMemberRow (p : PipelinerRow) (e mn jd : String) (newId : Id) : MemberRow :=
  { id := newId
    full_name := p.full_name
    email := e
    phone := p.phone
    member_number := some (strTrim mn)
    join_date := jd
    status := "active" }

/-- C7: when every check passes and both writes succeed, the promotion
inserts a member row carrying the pipeliner contact details, the trimmed
member number, the join date and status active, and flips the pipeliner to
became_member with the flag cleared; when the status update fails after the
insert, the inserted member is deleted and the database is left unchanged. -/
theorem C7_promote_member_postcondition (db : DB) (pid : Id) (mn jd : String)
    (newId : Id) (p : PipelinerRow) (e : String)
    (hfind : db.pipeliners.find? (fun q => q.id == pid) = some p)
    (hgate : (hasMetMembershipRequirements (pipelinerViewRow db p) ||
      (pipelinerViewRow db p).is_eligible_for_membership) = true)
    (hmn : strTrim mn ≠ "")
    (hjd : jd ≠ "")
    (hemail : p.email = some e)
    (hnodup : ∀ m ∈ db.members, m.email ≠ e ∧ m.member_number ≠ some (strTrim mn))
    (hfreshm : ∀ m ∈ db.members, m.id ≠ newId) :
    ((promotePipelinerToMember db pid mn jd newId true true).2 = none ∧
     (∃ m ∈ (promotePipelinerToMember db pid mn jd newId true true).1.members,
        m.full_name = p.full_name ∧ m.email = e ∧ m.phone = p.phone ∧
        m.member_number = some (strTrim mn) ∧ m.join_date = jd ∧ m.status = "active") ∧
     (∀ q ∈ (promotePipelinerToMember db pid mn jd newId true true).1.pipeliners,
        q.id = pid → q.status = "became_member" ∧ q.is_eligible_for_membership = false)) ∧
    promotePipelinerToMember db pid mn jd newId true false =
      (db, some PromoteMemberError.pipelinerUpdateFailed) := by
  have hvemail : (pipelinerViewRow db p).email = some e := hemail
  have hmnb : (strTrim mn == "") = false := by simpa using hmn
  have hjdb : (jd == "") = false := by simpa using hjd
  have hdupb : db.members.any
      (fun m => m.email == e || m.member_number == some (strTrim mn)) = false := by
    rw [List.any_eq_false]
    intro m hm
    simp [(hnodup m hm).1, (hnodup m hm).2]
  have hredT : promotePipelinerToMember db pid mn jd newId true true =
      ({ db with
          members := db.members ++ [promotedMemberRow p e mn jd newId]
          pipeliners := db.pipeliners.map (fun q =>
            if q.id == pid then
              { q with status := "became_member", is_eligible_for_membership := false }
            else q) }, none) := by
    unfold promotePipelinerToMember promotedMemberRow
    rw [hfind]
    dsimp only
    rw [hgate, hvemail]
    simp only [hmnb, hjdb, hdupb, Bool.not_true, Bool.false_eq_true, Bool.false_or,
      if_false, if_true]
    rfl
  have hredF : promotePipelinerToMember db pid mn jd newId true false =
      ({ db with
          members := (db.members ++ [promotedMemberRow p e mn jd newId]).filter
            (fun m => m.id != newId) },
        some PromoteMemberError.pipelinerUpdateFailed) := by
    unfold promotePipelinerToMember promotedMemberRow
    rw [hfind]
    dsimp only
    rw [hgate, hvemail]
    simp only [hmnb, hjdb, hdupb, Bool.not_true, Bool.false_eq_true, Bool.false_or,
      if_false, if_true]
    rfl
  refine ⟨⟨?_, ?_, ?_⟩, ?_⟩
  · rw [hredT]
  · rw [hredT]
    refine ⟨promotedMemberRow p e mn jd newId, ?_, ?_⟩
    · exact List.mem_append_right _ (List.mem_singleton_self _)
    · exact ⟨rfl, rfl, rfl, rfl, rfl, rfl⟩
  · rw [hredT]
    intro q hq hqid
    obtain ⟨q0, hq0, hEq⟩ := List.mem_map.mp hq
    by_cases hid : q0.id = pid
    · subst hEq
      simp [hid]
    · exfalso
      have hfalse : (q0.id == pid) = false := by simpa using hid
      rw [hfalse] at hEq
      simp only [Bool.false_eq_true, if_false] at hEq
      subst hEq
      exact hid hqid
  · rw [hredF]
    have hallm : ∀ m ∈ db.members, (m.id != newId) = true := fun m hm => by
      simpa using hfreshm m hm
    have hfil : (db.members ++ [promotedMemberRow p e mn jd newId]).filter
        (fun m => m.id != newId) = db.members := by
      rw [List.filter_append, List.filter_eq_self.mpr hallm]
      simp [promotedMemberRow]
    rw [hfil]

/-- Witness for C7 at a concrete database holding one eligible pipeliner. -/
theorem C7_witness :
    ((promotePipelinerToMember exDbPip 1 "RT-099" "2026-01-01" 2 true true).2 = none ∧
     (∃ m ∈ (promotePipelinerToMember exDbPip 1 "RT-099" "2026-01-01" 2 true true).1.members,
        m.full_name = exPipRow.full_name ∧ m.email = "p@x" ∧ m.phone = exPipRow.phone ∧
        m.member_number = some (strTrim "RT-099") ∧ m.join_date = "2026-01-01" ∧
        m.status = "active") ∧
     (∀ q ∈ (promotePipelinerToMember exDbPip 1 "RT-099" "2026-01-01" 2 true true).1.pipeliners,
        q.id = 1 → q.status = "became_member" ∧ q.is_eligible_for_membership = false)) ∧
    promotePipelinerToMember exDbPip 1 "RT-099" "2026-01-01" 2 true false =
      (exDbPip, some PromoteMemberError.pipelinerUpdateFailed) :=
  C7_promote_member_postcondition exDbPip 1 "RT-099" "2026-01-01" 2 exPipRow "p@x"
    (by decide) (by decide) (by decide) (by decide) (by decide) (by decide) (by decide)

/-- A database with one present attendance row for guest 1 and the invariant
holding, plus an unrelated pipeliner 2. -/
def exDbMove : DB :=
  { guests := [{ id := 1, total_meetings := 1 }]
    pipeliners := [{ id := 2 }]
    meetings := [{ id := 10 }]
    attendance := [{ id := 100, meeting_id := 10, guest_id := some 1,
                     status := AttStatus.present }] }

/-- The updated row: the subject reference moves from guest 1 to pipeliner 2. -/
def exMovedRow : AttendanceRow :=
  { id := 100, meeting_id := 10, pipeliner_id := some 2, status := AttStatus.present }

/-- The database after the update fires the triggers. -/
def exDbMoved : DB := updateAttendance exDbMove 0 exMovedRow

/-- C8: on an UPDATE that changes guest_id from a non-null value to null
(the subject moving to a pipeliner), the guard old.guest_id <> new.guest_id
evaluates to SQL NULL, so the old guest is never recomputed: guest 1 keeps the
stale total_meetings = 1 although its present count dropped to 0, while the
new subject pipeliner 2 is recomputed to 1. -/
theorem C8_update_trigger_skips_old_guest :
    guestInv exDbMove ∧
    guestPresentCount exDbMoved.attendance 1 = 0 ∧
    (∃ g ∈ exDbMoved.guests, g.id = 1 ∧ g.total_meetings = 1) ∧
    (∃ p ∈ exDbMoved.pipeliners, p.id = 2 ∧ p.business_meetings_count = 1) ∧
    ¬ guestInv exDbMoved := by
  decide

/-- An attendance row with no subject reference at all. -/
def exZeroRefRow : AttendanceRow := { id := 0, meeting_id := 10, status := AttStatus.present }

/-- An attendance row with two subject references. -/
def exTwoRefRow : AttendanceRow :=
  { id := 1, meeting_id := 10, member_id := some 1, guest_id := some 2,
    status := AttStatus.present }

/-- C9 counterexample input: the schema constraints on public.attendance
accept a table holding a row with zero subject references and a row with two,
so exactly-one-subject is not enforced. -/
theorem C9_counterexample :
    attendanceIndexesOk [exZeroRefRow, exTwoRefRow] = true ∧
    subjectRefCount exZeroRefRow = 0 ∧ subjectRefCount exTwoRefRow = 2 := by
  decide

theorem noDupKey_countP_le_one (sub : AttendanceRow → Option Id) (m s : Id) :
    ∀ rows : List AttendanceRow,
      noDupKey (fun r => (sub r).map (fun x => (r.meeting_id, x))) rows = true →
      rows.countP (fun r => r.meeting_id == m && sub r == some s) ≤ 1 := by
  intro rows
  induction rows with
  | nil => intro h; simp
  | cons r rest ih =>
    intro h
    simp only [noDupKey, Bool.and_eq_true] at h
    obtain ⟨h1, h2⟩ := h
    rw [List.countP_cons]
    by_cases hp : (r.meeting_id == m && sub r == some s) = true
    · rw [Bool.and_eq_true] at hp
      obtain ⟨hm1, hs1⟩ := hp
      have hmm : r.meeting_id = m := by simpa using hm1
      have hss : sub r = some s := by simpa using hs1
      have hkey : (sub r).map (fun x => (r.meeting_id, x)) = some (m, s) := by
        rw [hss, hmm]
        rfl
      rw [hkey] at h1
      have hzero : rest.countP (fun t => t.meeting_id == m && sub t == some s) = 0 := by
        rw [List.countP_eq_zero]
        intro t ht hcontra
        rw [Bool.and_eq_true] at hcontra
        obtain ⟨hm2, hs2⟩ := hcontra
        have hne : (sub t).map (fun x => (t.meeting_id, x)) ≠ some (m, s) :=
          of_decide_eq_true (List.all_eq_true.mp h1 t ht)
        apply hne
        rw [show sub t = some s from by simpa using hs2,
          show t.meeting_id = m from by simpa using hm2]
        rfl
      rw [hzero]
      simp [hmm, hss]
    · have hfalse : (r.meeting_id == m && sub r == some s) = false := by
        simpa using hp
      rw [hfalse]
      simpa using ih h2

/-- C9 (amended): the schema enforces only the three partial unique indexes
(at most one attendance row per meeting and subject, for each of the three
subject kinds) and the status check; exactly-one-subject is not a constraint,
so rows with zero or several subject references are accepted. The provable
enforcement: a table passing the schema constraints has at most one row per
(meeting, member), per (meeting, guest) and per (meeting, pipeliner) pair. -/
theorem C9_at_most_one_per_meeting_subject (rows : List AttendanceRow) (m s : Id)
    (h : attendanceIndexesOk rows = true) :
    rows.countP (fun r => r.meeting_id == m && r.member_id == some s) ≤ 1 ∧
    rows.countP (fun r => r.meeting_id == m && r.guest_id == some s) ≤ 1 ∧
    rows.countP (fun r => r.meeting_id == m && r.pipeliner_id == some s) ≤ 1 := by
  unfold attendanceIndexesOk at h
  simp only [Bool.and_eq_true] at h
  obtain ⟨⟨hmem, hgue⟩, hpip⟩ := h
  refine ⟨?_, ?_, ?_⟩
  · exact noDupKey_countP_le_one (fun r => r.member_id) m s rows hmem
  · exact noDupKey_countP_le_one (fun r => r.guest_id) m s rows hgue
  · exact noDupKey_countP_le_one (fun r => r.pipeliner_id) m s rows hpip

/-- Witness for C9 at the concrete two-row table. -/
theorem C9_witness :
    attendanceIndexesOk [exZeroRefRow, exTwoRefRow] = true ∧
    (([exZeroRefRow, exTwoRefRow].countP
        (fun r => r.meeting_id == 10 && r.member_id == some 2)) ≤ 1 ∧
     ([exZeroRefRow, exTwoRefRow].countP
        (fun r => r.meeting_id == 10 && r.guest_id == some 2)) ≤ 1 ∧
     ([exZeroRefRow, exTwoRefRow].countP
        (fun r => r.meeting_id == 10 && r.pipeliner_id == some 2)) ≤ 1) :=
  ⟨by decide, C9_at_most_one_per_meeting_subject [exZeroRefRow, exTwoRefRow] 10 2 (by decide)⟩

theorem filterMap_none {α β : Type} (l : List α) :
    l.filterMap (fun _ => (none : Option β)) = [] := by
  induction l with
  | nil => rfl
  | cons a t ih => simp [List.filterMap_cons, ih]

theorem roundTwo_mul_den (x : ℚ) : (roundToTwoDecimals x * 100).den = 1 := by
  unfold roundToTwoDecimals
  rw [div_mul_cancel₀]
  · exact Rat.den_intCast _
  · norm_num

theorem roundTwo_zero : roundToTwoDecimals 0 = 0 := by
  unfold roundToTwoDecimals
  simp

/-- C10: the reporting aggregator divides only behind positivity guards: with
zero active members, zero active pipeliners, zero meetings in the requested
month, or zero member attendance rows in the year window, the corresponding
rates are returned as 0; and every returned rate is an exact multiple of one
hundredth (the two-decimal rounding), hence a finite value. -/
theorem C10_stats_safe_rates (db : DB) (mS mE yS today : String) :
    ((activeMemberIdsOf db).length = 0 →
      (fetchMembershipStats db mS mE yS today).attendanceRate = 0 ∧
      (fetchMembershipStats db mS mE yS today).meetingAttendancePercentage = 0) ∧
    (activePipelinerCountOf db = 0 →
      (fetchMembershipStats db mS mE yS today).pipelinerAttendanceRate = 0) ∧
    (monthMeetingsOf db mS mE = [] →
      (fetchMembershipStats db mS mE yS today).attendanceRate = 0 ∧
      (fetchMembershipStats db mS mE yS today).meetingAttendancePercentage = 0 ∧
      (fetchMembershipStats db mS mE yS today).pipelinerAttendanceRate = 0) ∧
    (yearMemberAttendanceOf db yS mE today = [] →
      (fetchMembershipStats db mS mE yS today).yearlyAverage = 0) ∧
    ((fetchMembershipStats db mS mE yS today).attendanceRate * 100).den = 1 ∧
    ((fetchMembershipStats db mS mE yS today).meetingAttendancePercentage * 100).den = 1 ∧
    ((fetchMembershipStats db mS mE yS today).pipelinerAttendanceRate * 100).den = 1 ∧
    ((fetchMembershipStats db mS mE yS today).yearlyAverage * 100).den = 1 := by
  refine ⟨?_, ?_, ?_, ?_, ?_, ?_, ?_, ?_⟩
  · intro h
    constructor <;> simp [fetchMembershipStats, h, roundTwo_zero]
  · intro h
    simp [fetchMembershipStats, h, roundTwo_zero]
  · intro h
    refine ⟨?_, ?_, ?_⟩ <;> simp [fetchMembershipStats, h, roundTwo_zero]
  · intro h
    simp [fetchMembershipStats, h, roundTwo_zero, filterMap_none]
  · exact roundTwo_mul_den _
  · exact roundTwo_mul_den _
  · exact roundTwo_mul_den _
  · exact roundTwo_mul_den _

/-- Witness for C10 at the empty database. -/
theorem C10_witness :
    (activeMemberIdsOf {}).length = 0 ∧
    (fetchMembershipStats {} "2026-01-01" "2026-01-31" "2026-01-01" "2026-10-11").attendanceRate
        = 0 ∧
    ((fetchMembershipStats {} "2026-01-01" "2026-01-31" "2026-01-01"
        "2026-10-11").yearlyAverage * 100).den = 1 :=
  ⟨by decide,
   ((C10_stats_safe_rates {} "2026-01-01" "2026-01-31" "2026-01-01" "2026-10-11").1
     (by decide)).1,
   (C10_stats_safe_rates {} "2026-01-01" "2026-01-31" "2026-01-01"
     "2026-10-11").2.2.2.2.2.2.2⟩

end Membership
